import Mathlib

set_option autoImplicit false

/-!
Verification of the deep-chat data-loading and chart-generation core.

The development shallowly embeds the two pipelines of the repository:

* `dataLoader` (fetch, parse CSV, parse JSON, format a dataset for an AI
  prompt, compose the system prompt), and
* `chartGenerator` (the four chart-spec builders, the QuickChart URL
  linker and the function-call dispatcher).

Strings are manipulated at the character-list level so that every
operation is structurally recursive and kernel-computable.  JavaScript
semantics that matter here are modelled explicitly: object-property
assignment with overwrite, `||` defaulting with falsy empty strings,
`Array.prototype.slice` truncation, and the `TypeError` raised by
`Object.keys(undefined)` (represented by `Option.none`).
-/

/-- A parsed tabular row: an insertion-ordered mapping from column name to
cell value, as a JavaScript object holding only string values. -/
abbrev Row := List (String × String)

/-- Whitespace predicate used by trimming.  JavaScript `String.prototype.trim`
removes Unicode whitespace; the repository data is ASCII, where this agrees
with `Char.isWhitespace` (space, tab, CR, LF). -/
def jsIsSpace (c : Char) : Bool := c.isWhitespace

/-- `String.prototype.trim`: drop whitespace from both ends. -/
def jsTrim (s : List Char) : List Char :=
  ((s.dropWhile jsIsSpace).reverse.dropWhile jsIsSpace).reverse

/-- `String.prototype.split` with a one-character separator, as used by
`parseCSV` (split on a newline and on the one-character delimiter).
`splitChar sep s` never returns `[]`; splitting the empty string yields
`[[]]`, exactly as in JavaScript. -/
def splitChar (sep : Char) : List Char → List (List Char)
  | [] => [[]]
  | c :: rest =>
    let r := splitChar sep rest
    if c = sep then [] :: r
    else
      match r with
      | [] => [[c]]
      | g :: gs => (c :: g) :: gs

/-- The regex replacement `value.replace(/^"|"$/g, "")` from `parseCSV`:
remove one leading and one trailing double quote when present. -/
def stripQuotes (s : List Char) : List Char :=
  let s1 := match s with
    | '"' :: t => t
    | _ => s
  match s1.getLast? with
  | some c => if c = '"' then s1.dropLast else s1
  | none => s1

/-- One line of `parseCSV`: split on the delimiter, then trim and unquote
each field (`line.split(delimiter).map(v => v.trim().replace(/^"|"$/g, ""))`). -/
def parseFields (delimiter : Char) (line : List Char) : List String :=
  (splitChar delimiter line).map (fun f => String.mk (stripQuotes (jsTrim f)))

/-- JavaScript object-property assignment `row[k] = v`: overwrite in place
when the key exists, otherwise append the new key at the end. -/
def jsInsert (row : Row) (k v : String) : Row :=
  if row.any (fun p => p.1 == k) then
    row.map (fun p => if p.1 == k then (k, v) else p)
  else row ++ [(k, v)]

/-- The row-construction loop of `parseCSV`:
`headers.forEach((header, index) => row[header] = values[index])`.
Call sites guarantee `values.length = headers.length`. -/
def mkRow (headers values : List String) : Row :=
  (headers.zip values).foldl (fun r kv => jsInsert r kv.1 kv.2) []

/-- JavaScript property read `row[k]` on a parsed row: the value stored at
key `k`, if any. -/
def jsLookup (row : Row) (k : String) : Option String :=
  (row.find? (fun p => p.1 == k)).map Prod.snd

/-- Numeric value of a digit string. -/
def digitsVal (ds : List Char) : Nat :=
  ds.foldl (fun n c => 10 * n + (c.toNat - 48)) 0

/-- Whether a property key is an ECMAScript array index: a canonical
decimal string (digits only, no leading zero except `0` itself) whose
value is below `2^32 - 1`.  Such keys are enumerated before all other
string keys, in ascending numeric order. -/
def isArrayIndex (s : String) : Bool :=
  match s.data with
  | [] => false
  | c :: cs =>
    (c :: cs).all (fun d => d.isDigit)
      && (c != '0' || cs.isEmpty)
      && decide (digitsVal (c :: cs) < 4294967295)

/-- Insert a key into a list of array-index keys kept in ascending numeric
order. -/
def insertIndexKey (k : String) : List String → List String
  | [] => [k]
  | k2 :: ks =>
    if digitsVal k.data < digitsVal k2.data then k :: k2 :: ks
    else k2 :: insertIndexKey k ks

/-- Sort array-index keys into ascending numeric order. -/
def sortIndexKeys (ks : List String) : List String :=
  ks.foldr insertIndexKey []

/-- Insert an entry into a list of array-index-keyed entries kept in
ascending numeric key order. -/
def insertIndexPair (p : String × String) : Row → Row
  | [] => [p]
  | q :: qs =>
    if digitsVal p.1.data < digitsVal q.1.data then p :: q :: qs
    else q :: insertIndexPair p qs

/-- Sort array-index-keyed entries into ascending numeric key order. -/
def sortIndexPairs (l : Row) : Row :=
  l.foldr insertIndexPair []

/-- The entries of a row in ECMAScript own-property enumeration order
(`OrdinaryOwnPropertyKeys`): entries with array-index keys first, in
ascending numeric order, then the remaining entries in insertion order.
This is the order observed by `Object.keys` and `JSON.stringify`. -/
def jsEntries (row : Row) : Row :=
  sortIndexPairs (row.filter fun p => isArrayIndex p.1)
    ++ row.filter fun p => !isArrayIndex p.1

/-- ECMAScript own-property enumeration order applied to a key list:
array-index keys first in ascending numeric order, then the remaining keys
in insertion order. -/
def jsKeyOrder (ks : List String) : List String :=
  sortIndexKeys (ks.filter isArrayIndex) ++ ks.filter fun k => !isArrayIndex k

/-- `Object.keys(row)`: the own enumerable property names, with array-index
keys enumerated first in ascending numeric order and the remaining keys in
insertion order. -/
def rowKeys (row : Row) : List String := (jsEntries row).map Prod.fst

/-- First-occurrence deduplication of a key list; the underlying insertion
order produced by repeated JavaScript object assignment, before the
enumeration reordering of `jsKeyOrder`. -/
def dedupKeys (ks : List String) : List String :=
  ks.foldl (fun acc k => if k ∈ acc then acc else acc ++ [k]) []

/-- The line loop of `parseCSV` (source lines 35-48), applied to the list of
lines of the trimmed input: the first line provides the headers and every
later line is kept only when its field count equals the header count. -/
def parseLines (delimiter : Char) : List (List Char) → List Row
  | [] => []
  | headerLine :: rest =>
    let headers := parseFields delimiter headerLine
    rest.foldl
      (fun acc line =>
        let values := parseFields delimiter line
        if values.length == headers.length then acc ++ [mkRow headers values] else acc)
      []

/-- `parseCSV(csvText, delimiter = ",")` from `dataLoader`: trim the whole
text, split into lines, parse the header line and the data lines. -/
def parseCSV (csvText : String) (delimiter : Char := ',') : List Row :=
  parseLines delimiter (splitChar '\n' (jsTrim csvText.data))

/-! ### Dataset formatting and prompt composition (`dataLoader`) -/

/-- The `data` argument of `formatDataForAI` and `createDataContextPrompt`:
either a JavaScript array of parsed rows, or any non-array value.  For a
non-array value the only observation the embedded code makes is its
`JSON.stringify(value, null, 2)` serialization, carried by the
`other` constructor. -/
inductive JSData where
  | arr (rows : List Row)
  | other (serialized : String)

/-- One character of `JSON.stringify` string escaping: quote, backslash and
control characters are escaped, everything else is copied verbatim. -/
def jsonEscapeChar (c : Char) : List Char :=
  if c = '"' then ['\\', '"']
  else if c = '\\' then ['\\', '\\']
  else if c = '\x08' then ['\\', 'b']
  else if c = '\x09' then ['\\', 't']
  else if c = '\x0a' then ['\\', 'n']
  else if c = '\x0c' then ['\\', 'f']
  else if c = '\x0d' then ['\\', 'r']
  else if c.toNat < 32 then
    let lo := c.toNat % 16
    let hi := c.toNat / 16
    let hexDigit : Nat → Char := fun n => Char.ofNat (if n < 10 then 48 + n else 87 + n)
    ['\\', 'u', '0', '0', hexDigit hi, hexDigit lo]
  else [c]

/-- `JSON.stringify` escaping of a whole string. -/
def jsonEscapeStr (s : String) : String :=
  String.mk (s.data.foldr (fun c acc => jsonEscapeChar c ++ acc) [])

/-- `JSON.stringify(row)` for a flat object of string values, as produced by
`parseCSV`: entries in ECMAScript own-property enumeration order (array-index
keys first in ascending numeric order, then insertion order), no whitespace. -/
def jsonStringifyRow (row : Row) : String :=
  "\x7b" ++
    String.intercalate ","
      ((jsEntries row).map fun kv =>
        "\"" ++ jsonEscapeStr kv.1 ++ "\":\"" ++ jsonEscapeStr kv.2 ++ "\"") ++
    "\x7d"

/-- `formatDataForAI(data, maxRows = 50)` from `dataLoader`.  A non-array or
empty-array input yields the literal fallback string.  Otherwise the first
`maxRows` rows are kept (`data.slice(0, maxRows)`) and a fixed-shape summary
is rendered.  When `maxRows = 0` the sliced list is empty and the source
evaluates `Object.keys(limitedData[0])` on `undefined`, raising a
`TypeError`; that crash is modelled by `none`. -/
def formatDataForAI (data : JSData) (maxRows : Nat := 50) : Option String :=
  match data with
  | .other _ => some "No data available."
  | .arr rows =>
    if rows.isEmpty then some "No data available."
    else
      let limitedData := rows.take maxRows
      match limitedData with
      | [] => none
      | firstRow :: _ =>
        let headers := rowKeys firstRow
        some ("Data Summary (" ++ toString rows.length ++ " total rows, showing "
            ++ toString limitedData.length ++ "):\n\n"
          ++ "Columns: " ++ String.intercalate ", " headers ++ "\n\n"
          ++ "Sample Data:\n"
          ++ String.join (limitedData.enum.map fun p =>
               "Row " ++ toString (p.1 + 1) ++ ": " ++ jsonStringifyRow p.2 ++ "\n"))

/-- The template literal returned by `createDataContextPrompt`, with the
dataset context spliced between the two fixed instruction blocks. -/
def promptBoilerplate (basePrompt dataContext : String) : String :=
  basePrompt ++ "\n\nYou have access to the following dataset:\n\n" ++ dataContext
    ++ "\n\nWhen answering questions, use this data to provide accurate and relevant responses. You can analyze trends, provide statistics, and answer specific questions about the data."

/-- `createDataContextPrompt(data, basePrompt = "", maxRows = 50)` from
`dataLoader`: arrays are formatted by `formatDataForAI`, every other value
is serialized with `JSON.stringify(data, null, 2)` (the `other` payload). -/
def createDataContextPrompt (data : JSData) (basePrompt : String := "")
    (maxRows : Nat := 50) : Option String :=
  let dataContext :=
    match data with
    | .arr _ => formatDataForAI data maxRows
    | .other s => some s
  dataContext.map (promptBoilerplate basePrompt)

/-! ### Remote loading (`dataLoader`) -/

/-- Result of `fetchRemoteData`: either the raw response text, or a raised
error (non-success HTTP status, or a network failure), which the source
rethrows unchanged after logging. -/
inductive FetchOutcome where
  | ok (text : String)
  | failed (msg : String)

/-- Result of `loadRemoteData`, over an abstract type `J` of parsed JSON
values: parsed tabular rows, a parsed structured value, or a raised error. -/
inductive LoadOutcome (J : Type) where
  | tabular (rows : List Row)
  | structured (value : J)
  | failed (msg : String)

/-- `loadRemoteData(url, type = "csv")` from `dataLoader`, shallowly embedded
over the outcome of the `fetchRemoteData` call it awaits.  `JSON.parse` is
the host JSON decoder; it is abstracted as the `jsonParse` argument, whose
error (rethrown unchanged by `parseJSON`) propagates to the caller. -/
def loadRemoteData {J : Type} (jsonParse : String → Except String J)
    (fetched : FetchOutcome) (fileType : String := "csv") : LoadOutcome J :=
  match fetched with
  | .failed e => .failed e
  | .ok rawData =>
    if fileType = "csv" then .tabular (parseCSV rawData)
    else if fileType = "json" then
      match jsonParse rawData with
      | .ok v => .structured v
      | .error e => .failed e
    else .failed ("Unsupported data type: " ++ fileType)

/-! ### Chart configuration builders (`chartGenerator`) -/

/-- A data point passed to a chart builder: JavaScript numbers for line,
bar and pie charts, or `{x, y}` coordinate objects for scatter plots.  The
builders copy data points verbatim, so their numeric type is immaterial and
integers are used. -/
inductive DataPoint where
  | num (value : Int)
  | pt (x y : Int)
deriving DecidableEq

/-- One entry of the `datasets` argument of the line, bar and scatter
builders: `{label, data, color?}`. -/
structure ChartDataset where
  label : String
  data : List DataPoint
  color : Option String
deriving DecidableEq

/-- JavaScript `c || dflt` for a possibly-absent string `c`: the default is
used when the value is absent (`undefined`/`null`) and also when it is the
falsy empty string. -/
def jsOrStr (c : Option String) (dflt : String) : String :=
  match c with
  | some s => if s = "" then dflt else s
  | none => dflt

/-- One dataset of a built line-chart configuration. -/
structure LineSeriesSpec where
  label : String
  data : List DataPoint
  borderColor : String
  backgroundColor : String
  tension : Rat
deriving DecidableEq

/-- A built line-chart configuration (`type`, `data`, and the fixed
`options` block flattened into scalar fields). -/
structure LineChartSpec where
  chartType : String
  labels : List String
  datasets : List LineSeriesSpec
  titleText : String
  titleFontSize : Nat
  legendPosition : String
  yBeginAtZero : Bool
deriving DecidableEq

/-- `createLineChart({title, labels, datasets})` from `chartGenerator`. -/
def createLineChart (title : String) (labels : List String)
    (datasets : List ChartDataset) : LineChartSpec :=
  { chartType := "line"
    labels := labels
    datasets := datasets.map fun dataset =>
      { label := dataset.label
        data := dataset.data
        borderColor := jsOrStr dataset.color "rgb(75, 192, 192)"
        backgroundColor := jsOrStr dataset.color "rgba(75, 192, 192, 0.2)"
        tension := 1 / 10 }
    titleText := title
    titleFontSize := 16
    legendPosition := "top"
    yBeginAtZero := true }

/-- One dataset of a built bar-chart configuration. -/
structure BarSeriesSpec where
  label : String
  data : List DataPoint
  backgroundColor : String
  borderColor : String
  borderWidth : Nat
deriving DecidableEq

/-- A built bar-chart configuration. -/
structure BarChartSpec where
  chartType : String
  labels : List String
  datasets : List BarSeriesSpec
  titleText : String
  titleFontSize : Nat
  legendPosition : String
  yBeginAtZero : Bool
deriving DecidableEq

/-- `createBarChart({title, labels, datasets})` from `chartGenerator`. -/
def createBarChart (title : String) (labels : List String)
    (datasets : List ChartDataset) : BarChartSpec :=
  { chartType := "bar"
    labels := labels
    datasets := datasets.map fun dataset =>
      { label := dataset.label
        data := dataset.data
        backgroundColor := jsOrStr dataset.color "rgba(54, 162, 235, 0.5)"
        borderColor := jsOrStr dataset.color "rgb(54, 162, 235)"
        borderWidth := 1 }
    titleText := title
    titleFontSize := 16
    legendPosition := "top"
    yBeginAtZero := true }

/-- The fixed five-color fallback palette of `createPieChart`. -/
def defaultPieColors : List String :=
  ["rgba(255, 99, 132, 0.8)", "rgba(54, 162, 235, 0.8)", "rgba(255, 206, 86, 0.8)",
   "rgba(75, 192, 192, 0.8)", "rgba(153, 102, 255, 0.8)"]

/-- The single dataset of a built pie-chart configuration. -/
structure PieSeriesSpec where
  data : List DataPoint
  backgroundColor : List String
deriving DecidableEq

/-- A built pie-chart configuration. -/
structure PieChartSpec where
  chartType : String
  labels : List String
  dataset : PieSeriesSpec
  titleText : String
  titleFontSize : Nat
  legendPosition : String
deriving DecidableEq

/-- `createPieChart({title, labels, data, colors})` from `chartGenerator`.
`colors || [...]` falls back only for an absent (`undefined`/`null`)
argument: a present array, even an empty one, is truthy and used as is. -/
def createPieChart (title : String) (labels : List String) (data : List DataPoint)
    (colors : Option (List String)) : PieChartSpec :=
  { chartType := "pie"
    labels := labels
    dataset :=
      { data := data
        backgroundColor :=
          match colors with
          | some cs => cs
          | none => defaultPieColors }
    titleText := title
    titleFontSize := 16
    legendPosition := "right" }

/-- One dataset of a built scatter-plot configuration. -/
structure ScatterSeriesSpec where
  label : String
  data : List DataPoint
  backgroundColor : String
deriving DecidableEq

/-- A built scatter-plot configuration. -/
structure ScatterChartSpec where
  chartType : String
  datasets : List ScatterSeriesSpec
  titleText : String
  titleFontSize : Nat
  xScaleType : String
  xScalePosition : String
deriving DecidableEq

/-- `createScatterPlot({title, datasets})` from `chartGenerator`. -/
def createScatterPlot (title : String) (datasets : List ChartDataset) : ScatterChartSpec :=
  { chartType := "scatter"
    datasets := datasets.map fun dataset =>
      { label := dataset.label
        data := dataset.data
        backgroundColor := jsOrStr dataset.color "rgb(255, 99, 132)" }
    titleText := title
    titleFontSize := 16
    xScaleType := "linear"
    xScalePosition := "bottom" }

/-! ### Chart function dispatch (`chartGenerator`) -/

/-- The discriminated union of the four chart configurations, as handed to
`generateQuickChartUrl` by `handleChartFunction`. -/
inductive ChartConfig where
  | line (c : LineChartSpec)
  | bar (c : BarChartSpec)
  | pie (c : PieChartSpec)
  | scatter (c : ScatterChartSpec)
deriving DecidableEq

/-- The `args` object of an OpenAI chart function call, with one field per
property destructured by any of the four builders. -/
structure ChartArgs where
  title : String
  labels : List String
  datasets : List ChartDataset
  data : List DataPoint
  colors : Option (List String)
deriving DecidableEq

/-- The `arguments: \x7b\x7d` object of a call that carries no properties:
every destructured field is absent. -/
def emptyChartArgs : ChartArgs :=
  { title := "", labels := [], datasets := [], data := [], colors := none }

/-- Result of `handleChartFunction`: either the `\x7bhtml, text\x7d` payload
object returned on a registered name, or the bare string returned by the
`default` branch. -/
inductive ChartResult where
  | payload (html text : String)
  | plainString (s : String)
deriving DecidableEq

/-- Whether a dispatcher result is the `\x7bhtml, text\x7d` payload object
(the `RenderPayload` shape of the specification). -/
def ChartResult.isPayloadShaped : ChartResult → Bool
  | .payload _ _ => true
  | .plainString _ => false

/-- An apostrophe character, kept out of string literals. -/
def apos : String := String.mk [Char.ofNat 39]

/-- The template literal wrapped around the chart URL by
`handleChartFunction` (an `img` tag inside a styled `div`). -/
def chartHtml (chartUrl title : String) : String :=
  "<div style=\"margin: 10px 0;\">\n      <img src=\"" ++ chartUrl ++ "\" alt=\"" ++ title
    ++ "\" style=\"max-width: 100%; border-radius: 8px; box-shadow: 0 2px 8px rgba(0,0,0,0.1);\" />\n    </div>"

/-- The caption `Here=s your title` (with an apostrophe) returned next to
the chart HTML. -/
def heresYour (title : String) : String :=
  "Here" ++ apos ++ "s your " ++ title

/-- `handleChartFunction(functionName, args)` from `chartGenerator`.  The
`switch` maps each of the four registered names to its builder, wraps the
QuickChart URL of the built config in the HTML payload, and the `default`
branch returns a bare error string.  `generateQuickChartUrl` percent-encodes
the `JSON.stringify` of the config; that host serialization is abstracted as
the `urlOf` argument, which none of the settled claims constrain. -/
def handleChartFunction (urlOf : ChartConfig → String) (functionName : String)
    (args : ChartArgs) : ChartResult :=
  if functionName = "create_line_chart" then
    let chartUrl := urlOf (.line (createLineChart args.title args.labels args.datasets))
    .payload (chartHtml chartUrl args.title) (heresYour args.title)
  else if functionName = "create_bar_chart" then
    let chartUrl := urlOf (.bar (createBarChart args.title args.labels args.datasets))
    .payload (chartHtml chartUrl args.title) (heresYour args.title)
  else if functionName = "create_pie_chart" then
    let chartUrl := urlOf (.pie (createPieChart args.title args.labels args.data args.colors))
    .payload (chartHtml chartUrl args.title) (heresYour args.title)
  else if functionName = "create_scatter_plot" then
    let chartUrl := urlOf (.scatter (createScatterPlot args.title args.datasets))
    .payload (chartHtml chartUrl args.title) (heresYour args.title)
  else .plainString ("Error: Unknown function " ++ functionName)

/-! ### Helper lemmas about the parser -/

/-- A fold that conditionally pushes to an accumulator list is a
filter-then-map. -/
theorem foldl_push_filter {α β : Type} (p : α → Bool) (f : α → β) (l : List α)
    (init : List β) :
    l.foldl (fun acc x => if p x then acc ++ [f x] else acc) init
      = init ++ (l.filter p).map f := by
  induction l generalizing init with
  | nil => simp
  | cons a l ih =>
    simp only [List.foldl_cons, List.filter_cons]
    by_cases h : p a
    · simp [h, ih]
    · simp [h, ih]

/-- The data-line loop of `parseCSV` keeps, in order, exactly the lines
whose field count equals the header count, and turns each into a row. -/
theorem parseLines_cons (delimiter : Char) (headerLine : List Char)
    (rest : List (List Char)) :
    parseLines delimiter (headerLine :: rest)
      = ((rest.filter fun line =>
            (parseFields delimiter line).length == (parseFields delimiter headerLine).length).map
          fun line => mkRow (parseFields delimiter headerLine) (parseFields delimiter line)) := by
  have h := foldl_push_filter
      (fun line => (parseFields delimiter line).length == (parseFields delimiter headerLine).length)
      (fun line => mkRow (parseFields delimiter headerLine) (parseFields delimiter line))
      rest []
  simpa [parseLines] using h

/-- Assigning a key absent from a row appends the pair at the end. -/
theorem jsInsert_not_mem (row : Row) (k v : String) (h : k ∉ row.map Prod.fst) :
    jsInsert row k v = row ++ [(k, v)] := by
  have hany : row.any (fun p => p.1 == k) = false := by
    rw [List.any_eq_false]
    intro p hp hk
    exact h (List.mem_map.mpr ⟨p, hp, by simpa using hk⟩)
  simp [jsInsert, hany]

/-- Folding assignments whose keys are pairwise distinct and absent from the
accumulator appends all the pairs in order. -/
theorem foldl_jsInsert_fresh (pairs : List (String × String)) (acc : Row)
    (hnd : (pairs.map Prod.fst).Nodup)
    (hfresh : ∀ kv ∈ pairs, kv.1 ∉ acc.map Prod.fst) :
    pairs.foldl (fun r kv => jsInsert r kv.1 kv.2) acc = acc ++ pairs := by
  induction pairs generalizing acc with
  | nil => simp
  | cons kv ps ih =>
    have hnd2 : kv.1 ∉ ps.map Prod.fst ∧ (ps.map Prod.fst).Nodup :=
      List.nodup_cons.mp (by simpa using hnd)
    simp only [List.foldl_cons]
    rw [jsInsert_not_mem _ _ _ (hfresh kv (by simp))]
    rw [ih (acc ++ [(kv.1, kv.2)]) hnd2.2 ?_]
    · simp
    · intro p hp
      simp only [List.map_append, List.mem_append, List.map_cons, List.map_nil,
        List.mem_singleton, not_or]
      refine ⟨hfresh p (List.mem_cons_of_mem _ hp), ?_⟩
      intro hcontra
      exact hnd2.1 (hcontra ▸ List.mem_map_of_mem Prod.fst hp)

/-- With pairwise-distinct headers and matching lengths, the row built by
`parseCSV` is exactly the header-value zip. -/
theorem mkRow_eq_zip (headers values : List String) (hnd : headers.Nodup)
    (hlen : values.length = headers.length) :
    mkRow headers values = headers.zip values := by
  have hfst : (headers.zip values).map Prod.fst = headers :=
    List.map_fst_zip headers values (by omega)
  rw [mkRow, foldl_jsInsert_fresh _ _ (by rw [hfst]; exact hnd) (by simp)]
  simp

/-- Property lookup in a zipped row with pairwise-distinct keys returns the
value stored at the matching position. -/
theorem jsLookup_zip (headers : List String) :
    ∀ (values : List String) (i : Nat) (hi : i < headers.length),
      headers.Nodup → values.length = headers.length →
      jsLookup (headers.zip values) headers[i] = values[i]? := by
  induction headers with
  | nil =>
    intro values i hi
    exact absurd hi (by simp)
  | cons h hs ih =>
    intro values i hi hnd hlen
    match values with
    | [] => simp at hlen
    | v :: vs =>
      rw [List.zip_cons_cons]
      match i with
      | 0 => simp [jsLookup, List.find?_cons]
      | i + 1 =>
        have hi2 : i < hs.length := by simpa using hi
        have hmem : hs[i] ∈ hs := List.getElem_mem hi2
        have hne : (h == hs[i]) = false := by
          rw [beq_eq_false_iff_ne]
          intro heq
          exact (List.nodup_cons.mp hnd).1 (heq ▸ hmem)
        have hkey : (h :: hs)[i + 1] = hs[i] := List.getElem_cons_succ h hs i hi
        rw [hkey]
        have hstep : jsLookup ((h, v) :: hs.zip vs) hs[i]
            = jsLookup (hs.zip vs) hs[i] := by
          simp [jsLookup, List.find?_cons, hne]
        rw [hstep, ih vs i hi2 (List.nodup_cons.mp hnd).2 (by simpa using hlen)]
        simp

/-- Assignment leaves the raw (insertion-order) key list unchanged when the
key exists and appends the key otherwise. -/
theorem entryKeys_jsInsert (row : Row) (k v : String) :
    (jsInsert row k v).map Prod.fst
      = if k ∈ row.map Prod.fst then row.map Prod.fst else row.map Prod.fst ++ [k] := by
  by_cases h : k ∈ row.map Prod.fst
  · rw [if_pos h, jsInsert, if_pos ?hany]
    case hany =>
      rw [List.any_eq_true]
      obtain ⟨p, hp, hpk⟩ := List.mem_map.mp h
      exact ⟨p, hp, by simp [hpk]⟩
    rw [List.map_map]
    apply List.map_congr_left
    intro p hp
    by_cases hpk : p.1 = k
    · simp only [Function.comp_apply, hpk, beq_self_eq_true, if_pos]
    · have hpk2 : (p.1 == k) = false := beq_eq_false_iff_ne.mpr hpk
      simp [Function.comp_apply, hpk, hpk2]
  · rw [if_neg h, jsInsert_not_mem row k v h]
    simp

/-- The raw key list of a row built by folding assignments depends only on
the assigned keys, via first-occurrence deduplication. -/
theorem entryKeys_foldl (pairs : List (String × String)) (acc : Row) :
    (pairs.foldl (fun r kv => jsInsert r kv.1 kv.2) acc).map Prod.fst
      = (pairs.map Prod.fst).foldl (fun ks k => if k ∈ ks then ks else ks ++ [k])
          (acc.map Prod.fst) := by
  induction pairs generalizing acc with
  | nil => simp
  | cons kv ps ih =>
    simp only [List.foldl_cons, List.map_cons]
    rw [ih (jsInsert acc kv.1 kv.2), entryKeys_jsInsert]

/-- The raw key list of a `parseCSV` row is the deduplicated header list. -/
theorem entryKeys_mkRow (headers values : List String)
    (hlen : values.length = headers.length) :
    (mkRow headers values).map Prod.fst = dedupKeys headers := by
  rw [mkRow, entryKeys_foldl, List.map_fst_zip headers values (by omega)]
  rfl

/-- Mapping first components commutes with filtering by a key predicate. -/
theorem map_fst_filter_key (q : String → Bool) (l : Row) :
    (l.filter fun p => q p.1).map Prod.fst = (l.map Prod.fst).filter q := by
  induction l with
  | nil => rfl
  | cons a l ih =>
    by_cases h : q a.1
    · simp [List.filter_cons, h, ih]
    · simp [List.filter_cons, h, ih]

/-- Mapping first components commutes with ascending-numeric insertion. -/
theorem map_fst_insertIndexPair (p : String × String) (l : Row) :
    (insertIndexPair p l).map Prod.fst = insertIndexKey p.1 (l.map Prod.fst) := by
  induction l with
  | nil => rfl
  | cons q qs ih =>
    by_cases h : digitsVal p.1.data < digitsVal q.1.data
    · simp [insertIndexPair, insertIndexKey, h]
    · simp [insertIndexPair, insertIndexKey, h, ih]

/-- Mapping first components commutes with the ascending-numeric sort. -/
theorem map_fst_sortIndexPairs (l : Row) :
    (sortIndexPairs l).map Prod.fst = sortIndexKeys (l.map Prod.fst) := by
  induction l with
  | nil => rfl
  | cons p l ih =>
    show (insertIndexPair p (sortIndexPairs l)).map Prod.fst
      = insertIndexKey p.1 (sortIndexKeys (l.map Prod.fst))
    rw [map_fst_insertIndexPair, ih]

/-- The enumerated keys of a row are the enumeration reordering of its raw
key list. -/
theorem rowKeys_eq_jsKeyOrder (row : Row) :
    rowKeys row = jsKeyOrder (row.map Prod.fst) := by
  unfold rowKeys jsEntries jsKeyOrder
  rw [List.map_append, map_fst_sortIndexPairs, map_fst_filter_key isArrayIndex,
    map_fst_filter_key (fun k => !isArrayIndex k) row]

/-- The keys of a `parseCSV` row: the deduplicated header names, in
ECMAScript own-property enumeration order. -/
theorem rowKeys_mkRow (headers values : List String)
    (hlen : values.length = headers.length) :
    rowKeys (mkRow headers values) = jsKeyOrder (dedupKeys headers) := by
  rw [rowKeys_eq_jsKeyOrder, entryKeys_mkRow headers values hlen]

/-- Enumeration order is the identity on key lists without array-index
keys. -/
theorem jsKeyOrder_of_no_index (ks : List String)
    (h : ∀ k ∈ ks, isArrayIndex k = false) : jsKeyOrder ks = ks := by
  have h1 : ks.filter isArrayIndex = [] := by
    rw [List.filter_eq_nil_iff]
    intro a ha
    simp [h a ha]
  have h2 : (ks.filter fun k => !isArrayIndex k) = ks := by
    apply List.filter_eq_self.mpr
    intro a ha
    simp [h a ha]
  unfold jsKeyOrder
  rw [h1, h2]
  rfl

/-- Deduplication is the identity on lists without duplicates. -/
theorem dedupKeys_of_nodup (ks : List String) (hnd : ks.Nodup) : dedupKeys ks = ks := by
  have main : ∀ (l acc : List String), l.Nodup → (∀ k ∈ l, k ∉ acc) →
      l.foldl (fun ks k => if k ∈ ks then ks else ks ++ [k]) acc = acc ++ l := by
    intro l
    induction l with
    | nil => intro acc _ _; simp
    | cons a l ih =>
      intro acc hnda hfr
      simp only [List.foldl_cons]
      rw [if_neg (hfr a (by simp))]
      rw [ih (acc ++ [a]) (List.nodup_cons.mp hnda).2 ?_]
      · simp
      · intro k hk
        simp only [List.mem_append, List.mem_singleton, not_or]
        refine ⟨hfr k (List.mem_cons_of_mem _ hk), ?_⟩
        intro hcontra
        exact (List.nodup_cons.mp hnda).1 (hcontra ▸ hk)
  simpa [dedupKeys] using main ks [] hnd (by simp)

/-! ### Claims about the tabular parser -/

/-- Claim C1, counterexample: the claim as stated fails when two header
names coincide.  For the input `a,a` / `1,2` both data fields survive the
length check, the second assignment to key `a` overwrites the first, and so
the single row maps the 0-th header name `a` to the value `2` at position 1,
not to the value `1` at position 0 as the claim requires. -/
theorem parseCSV_dup_header_value_cex :
    parseFields ',' ("a,a".data) = ["a", "a"] ∧
    parseFields ',' ("1,2".data) = ["1", "2"] ∧
    jsLookup ((parseCSV "a,a\n1,2").get ⟨0, by decide⟩) "a" = some "2" ∧
    jsLookup ((parseCSV "a,a\n1,2").get ⟨0, by decide⟩) "a" ≠ some "1" := by
  decide

/-- Claim C1 (amended): additionally assuming the parsed header names are
pairwise distinct, for every delimited text whose trimmed content splits
into a header line with `n` fields followed by `k` data lines each with
exactly `n` fields, `parseCSV` returns exactly `k` rows, and row `j` maps
the `i`-th trimmed, unquoted header name to the trimmed, unquoted value at
position `i` of data line `j`. -/
theorem parseCSV_wellformed_rows (text : String) (delimiter : Char)
    (headerLine : List Char) (dataLines : List (List Char))
    (hsplit : splitChar '\n' (jsTrim text.data) = headerLine :: dataLines)
    (hnd : (parseFields delimiter headerLine).Nodup)
    (hlen : ∀ dl ∈ dataLines,
      (parseFields delimiter dl).length = (parseFields delimiter headerLine).length) :
    (parseCSV text delimiter).length = dataLines.length ∧
    ∀ (j : Nat) (hj : j < dataLines.length) (hj2 : j < (parseCSV text delimiter).length)
      (i : Nat) (hi : i < (parseFields delimiter headerLine).length),
      jsLookup ((parseCSV text delimiter).get ⟨j, hj2⟩)
          ((parseFields delimiter headerLine).get ⟨i, hi⟩)
        = (parseFields delimiter (dataLines.get ⟨j, hj⟩))[i]? := by
  have hcsv : parseCSV text delimiter = dataLines.map
      (fun line => mkRow (parseFields delimiter headerLine) (parseFields delimiter line)) := by
    rw [parseCSV, hsplit, parseLines_cons]
    congr 1
    apply List.filter_eq_self.mpr
    intro line hline
    simpa using hlen line hline
  constructor
  · rw [hcsv]
    simp
  · intro j hj hj2 i hi
    simp only [List.get_eq_getElem, hcsv, List.getElem_map]
    have hlenj : (parseFields delimiter dataLines[j]).length
        = (parseFields delimiter headerLine).length :=
      hlen _ (List.getElem_mem hj)
    rw [mkRow_eq_zip _ _ hnd hlenj]
    exact jsLookup_zip _ _ i hi hnd hlenj

/-- Claim C1, witness: on `a,b` over `1,2` and `3,4` the second row maps
header `b` to `4`. -/
theorem parseCSV_wellformed_rows_witness :
    jsLookup ((parseCSV "a,b\n1,2\n3,4").get ⟨1, by decide⟩) "b" = some "4" :=
  (parseCSV_wellformed_rows "a,b\n1,2\n3,4" ',' ("a,b".data) ["1,2".data, "3,4".data]
      (by decide) (by decide) (by decide)).2 1 (by decide) (by decide) 1 (by decide)

/-- Claim C2: a data line is kept exactly when its field count equals the
header count, mismatched lines being dropped silently and in order; in
particular `a,b` over `1,2,3` and `4,5` parses to the single row mapping
`a` to `4` and `b` to `5`. -/
theorem parseCSV_drops_mismatched_lines :
    (∀ (delimiter : Char) (headerLine : List Char) (rest : List (List Char)),
      parseLines delimiter (headerLine :: rest)
        = ((rest.filter fun line =>
              (parseFields delimiter line).length
                == (parseFields delimiter headerLine).length).map
            fun line => mkRow (parseFields delimiter headerLine)
              (parseFields delimiter line))) ∧
    parseCSV "a,b\n1,2,3\n4,5" = [[("a", "4"), ("b", "5")]] :=
  ⟨parseLines_cons, by decide⟩

/-- Claim C9, counterexample: the claimed key list fails in two ways.  With
the duplicated header line `x,x` the parsed header names are `["x", "x"]`
but the key list of the resulting row is `["x"]` (assignment overwrites the
existing key).  With the header line `b,1` the parsed header names are
`["b", "1"]` but `Object.keys` of the row `\x7bb:"x", "1":"y"\x7d` is
`["1", "b"]`, because the array-index key `"1"` is enumerated before the
string key `b`; so the row keys match the header names neither as a list
nor in order. -/
theorem parseCSV_dup_header_keys_cex :
    (rowKeys ((parseCSV "x,x\n1,2").get ⟨0, by decide⟩) = ["x"] ∧
      parseFields ',' ("x,x".data) = ["x", "x"] ∧
      (["x"] : List String) ≠ ["x", "x"]) ∧
    (rowKeys ((parseCSV "b,1\nx,y").get ⟨0, by decide⟩) = ["1", "b"] ∧
      parseFields ',' ("b,1".data) = ["b", "1"] ∧
      (["1", "b"] : List String) ≠ ["b", "1"]) := by
  decide

/-- Claim C9 (amended): every row produced by one `parseCSV` call has the
same key list, namely the parsed header names of the first line with
duplicates removed (first occurrence kept) and enumerated in ECMAScript
own-property order: array-index keys first in ascending numeric order, then
the remaining keys in insertion order.  When the parsed header names are
pairwise distinct and none is an array-index key, this is exactly the
header-name list, as the original claim states; in every case no row
carries extra or missing keys relative to any other row of the same
result. -/
theorem parseCSV_uniform_row_keys (delimiter : Char) (headerLine : List Char)
    (dataLines : List (List Char)) :
    (∀ row ∈ parseLines delimiter (headerLine :: dataLines),
        rowKeys row = jsKeyOrder (dedupKeys (parseFields delimiter headerLine))) ∧
    (∀ r1 ∈ parseLines delimiter (headerLine :: dataLines),
      ∀ r2 ∈ parseLines delimiter (headerLine :: dataLines), rowKeys r1 = rowKeys r2) ∧
    ((parseFields delimiter headerLine).Nodup →
      (∀ k ∈ parseFields delimiter headerLine, isArrayIndex k = false) →
      jsKeyOrder (dedupKeys (parseFields delimiter headerLine))
        = parseFields delimiter headerLine) := by
  have hkeys : ∀ row ∈ parseLines delimiter (headerLine :: dataLines),
      rowKeys row = jsKeyOrder (dedupKeys (parseFields delimiter headerLine)) := by
    intro row hrow
    rw [parseLines_cons] at hrow
    obtain ⟨line, hline, rfl⟩ := List.mem_map.mp hrow
    have hlen : (parseFields delimiter line).length
        = (parseFields delimiter headerLine).length := by
      simpa using (List.mem_filter.mp hline).2
    exact rowKeys_mkRow _ _ hlen
  refine ⟨hkeys, fun r1 h1 r2 h2 => (hkeys r1 h1).trans (hkeys r2 h2).symm, ?_⟩
  intro hnd hni
  rw [dedupKeys_of_nodup _ hnd]
  exact jsKeyOrder_of_no_index _ hni

/-- Claim C9, witness: the row parsed from `a,b` over `1,2` has exactly the
enumeration-ordered deduplicated header keys, which here are the header
names themselves. -/
theorem parseCSV_uniform_row_keys_witness :
    rowKeys [("a", "1"), ("b", "2")]
        = jsKeyOrder (dedupKeys (parseFields ',' ("a,b".data))) ∧
    jsKeyOrder (dedupKeys (parseFields ',' ("a,b".data)))
        = parseFields ',' ("a,b".data) :=
  ⟨(parseCSV_uniform_row_keys ',' ("a,b".data) ["1,2".data]).1
      [("a", "1"), ("b", "2")] (by decide),
    (parseCSV_uniform_row_keys ',' ("a,b".data) ["1,2".data]).2.2
      (by decide) (by decide)⟩

/-! ### Claims about formatting and prompt composition -/

/-- Claim C3, counterexample: at `maxRows = 0` a non-empty dataset satisfies
`N > maxRows`, yet the source slices the data to an empty list and then
evaluates `Object.keys(limitedData[0])` on `undefined`, raising a
`TypeError` (modelled as `none`) instead of producing the claimed output. -/
theorem formatDataForAI_zero_maxRows_cex :
    formatDataForAI (.arr [[("a", "1")]]) 0 = none ∧
    0 < ([[("a", "1")]] : List Row).length := by
  decide

/-- Claim C3 (amended): for every non-empty dataset of `N` rows and every
`maxRows` with `1 ≤ maxRows < N`, the formatted output is the fixed-shape
summary whose count statement shows total `N` and shown `maxRows`, followed
by one line per kept row; exactly `maxRows` rows are kept, they are a
prefix of the dataset in original order, and their lines carry the 1-based
sequential indices `1..maxRows`. -/
theorem formatDataForAI_truncates (firstRow : Row) (rest : List Row) (maxRows : Nat)
    (hpos : 1 ≤ maxRows) (hlt : maxRows < (firstRow :: rest).length) :
    formatDataForAI (.arr (firstRow :: rest)) maxRows
      = some ("Data Summary (" ++ toString (firstRow :: rest).length
            ++ " total rows, showing " ++ toString maxRows ++ "):\n\n"
          ++ "Columns: " ++ String.intercalate ", " (rowKeys firstRow) ++ "\n\n"
          ++ "Sample Data:\n"
          ++ String.join (((firstRow :: rest).take maxRows).enum.map fun p =>
               "Row " ++ toString (p.1 + 1) ++ ": " ++ jsonStringifyRow p.2 ++ "\n")) ∧
    ((firstRow :: rest).take maxRows).length = maxRows ∧
    (firstRow :: rest).take maxRows <+: (firstRow :: rest) := by
  obtain ⟨m, rfl⟩ : ∃ m, maxRows = m + 1 := ⟨maxRows - 1, by omega⟩
  have hlen : ((firstRow :: rest).take (m + 1)).length = m + 1 := by
    rw [List.length_take]
    simp only [List.length_cons] at hlt ⊢
    omega
  refine ⟨?_, hlen, List.take_prefix _ _⟩
  have hbase : formatDataForAI (.arr (firstRow :: rest)) (m + 1)
      = some ("Data Summary (" ++ toString (firstRow :: rest).length
            ++ " total rows, showing "
            ++ toString ((firstRow :: rest).take (m + 1)).length ++ "):\n\n"
          ++ "Columns: " ++ String.intercalate ", " (rowKeys firstRow) ++ "\n\n"
          ++ "Sample Data:\n"
          ++ String.join (((firstRow :: rest).take (m + 1)).enum.map fun p =>
               "Row " ++ toString (p.1 + 1) ++ ": " ++ jsonStringifyRow p.2 ++ "\n")) := rfl
  rw [hbase, hlen]

/-- Claim C3, witness: two rows shown with limit one. -/
theorem formatDataForAI_truncates_witness :
    formatDataForAI (.arr [[("a", "1")], [("a", "2")]]) 1
      = some ("Data Summary (2 total rows, showing 1):\n\nColumns: a\n\n"
          ++ "Sample Data:\nRow 1: \x7b\"a\":\"1\"\x7d\n") :=
  (formatDataForAI_truncates [("a", "1")] [[("a", "2")]] 1 (by decide) (by decide)).1

/-- Claim C7: for an empty array, and for every non-array value, the
formatter returns exactly the literal fallback string. -/
theorem formatDataForAI_no_data (data : JSData) (maxRows : Nat)
    (h : data = .arr [] ∨ ∃ s, data = .other s) :
    formatDataForAI data maxRows = some "No data available." := by
  rcases h with rfl | ⟨s, rfl⟩
  · rfl
  · rfl

/-- Claim C7, witness: the empty array with the default limit. -/
theorem formatDataForAI_no_data_witness :
    formatDataForAI (.arr []) 50 = some "No data available." :=
  formatDataForAI_no_data (.arr []) 50 (Or.inl rfl)

/-- Claim C10: called on an empty array, the prompt composer takes the
tabular branch, so the returned prompt embeds the literal fallback string
as its dataset context; this differs from the prompt that would embed the
structured serialization `[]` of the empty array. -/
theorem createDataContextPrompt_empty_array (basePrompt : String) (maxRows : Nat) :
    createDataContextPrompt (.arr []) basePrompt maxRows
        = some (promptBoilerplate basePrompt "No data available.") ∧
    promptBoilerplate basePrompt "No data available." ≠ promptBoilerplate basePrompt "[]" := by
  refine ⟨rfl, ?_⟩
  have h1 : ("No data available." : String).length = 18 := rfl
  have h2 : ("[]" : String).length = 2 := rfl
  intro hcontra
  have hlen := congrArg String.length hcontra
  simp only [promptBoilerplate, String.length_append, h1, h2] at hlen
  omega

/-! ### Claims about remote loading -/

/-- Claim C6: the loader routes the fetched text to the CSV parser for
format `csv` and to the JSON parser for format `json`; every other format
fails with the unsupported-data-type error; fetch errors and JSON parse
errors propagate unchanged. -/
theorem loadRemoteData_routing {J : Type} (jsonParse : String → Except String J)
    (rawData : String) (fileType : String) (e : String) :
    (loadRemoteData jsonParse (.ok rawData) "csv" = .tabular (parseCSV rawData)) ∧
    (loadRemoteData jsonParse (.ok rawData) "json"
        = match jsonParse rawData with
          | .ok v => .structured v
          | .error msg => .failed msg) ∧
    (fileType ≠ "csv" → fileType ≠ "json" →
      loadRemoteData jsonParse (.ok rawData) fileType
        = .failed ("Unsupported data type: " ++ fileType)) ∧
    (loadRemoteData jsonParse (.failed e) fileType = .failed e) := by
  refine ⟨rfl, rfl, ?_, rfl⟩
  intro h1 h2
  simp [loadRemoteData, h1, h2]

/-- Claim C6, witness: the format `xml` is rejected with the
unsupported-data-type error. -/
theorem loadRemoteData_routing_witness :
    loadRemoteData (fun _ => Except.ok ()) (.ok "a,b\n1,2") "xml"
      = .failed "Unsupported data type: xml" :=
  (loadRemoteData_routing (fun _ => Except.ok ()) "a,b\n1,2" "xml" "x").2.2.1
    (by decide) (by decide)

/-! ### Claims about the chart dispatcher and builders -/

/-- Claim C4, counterexample: on an unregistered name the dispatcher result
is the bare string of the `default` branch, not a RenderPayload-shaped
`\x7bhtml, text\x7d` object as the claim states. -/
theorem handleChartFunction_unknown_cex :
    handleChartFunction (fun _ => "") "unknown_fn" emptyChartArgs
        = .plainString "Error: Unknown function unknown_fn" ∧
    (handleChartFunction (fun _ => "") "unknown_fn" emptyChartArgs).isPayloadShaped
        = false :=
  ⟨rfl, rfl⟩

/-- Claim C4 (amended): for every function name other than the four
registered chart-function names, the dispatcher raises no error and returns
the plain string `Error: Unknown function <name>` — a soft string failure,
not a RenderPayload-shaped object. -/
theorem handleChartFunction_unknown (urlOf : ChartConfig → String)
    (functionName : String) (args : ChartArgs)
    (h1 : functionName ≠ "create_line_chart") (h2 : functionName ≠ "create_bar_chart")
    (h3 : functionName ≠ "create_pie_chart") (h4 : functionName ≠ "create_scatter_plot") :
    handleChartFunction urlOf functionName args
        = .plainString ("Error: Unknown function " ++ functionName) ∧
    (handleChartFunction urlOf functionName args).isPayloadShaped = false := by
  have hres : handleChartFunction urlOf functionName args
      = .plainString ("Error: Unknown function " ++ functionName) := by
    simp [handleChartFunction, h1, h2, h3, h4]
  exact ⟨hres, by rw [hres]; rfl⟩

/-- Claim C4, witness: a name absent from the registered table. -/
theorem handleChartFunction_unknown_witness :
    handleChartFunction (fun _ => "u") "my_fn" emptyChartArgs
      = .plainString "Error: Unknown function my_fn" :=
  (handleChartFunction_unknown (fun _ => "u") "my_fn" emptyChartArgs
    (by decide) (by decide) (by decide) (by decide)).1

/-- Claim C5, counterexample: with the colors argument absent and two
slices, the attached background palette keeps all five default entries, so
the number of slice colors does not match the slice count. -/
theorem createPieChart_palette_cex :
    (createPieChart "T" ["a", "b"] [DataPoint.num 1, DataPoint.num 2]
        none).dataset.backgroundColor.length = 5 ∧
    (createPieChart "T" ["a", "b"] [DataPoint.num 1, DataPoint.num 2]
        none).dataset.data.length = 2 ∧
    (createPieChart "T" ["a", "b"] [DataPoint.num 1, DataPoint.num 2]
          none).dataset.backgroundColor.length
        ≠ (createPieChart "T" ["a", "b"] [DataPoint.num 1, DataPoint.num 2]
          none).dataset.data.length := by
  decide

/-- Claim C5 (amended): when the colors argument is absent the pie builder
falls back to the fixed 5-color default palette attached unchanged — always
five entries, independent of the slice count; any cycling or truncation is
left to the downstream rendering service. -/
theorem createPieChart_default_palette (title : String) (labels : List String)
    (data : List DataPoint) :
    (createPieChart title labels data none).dataset.backgroundColor = defaultPieColors ∧
    defaultPieColors.length = 5 :=
  ⟨rfl, rfl⟩

/-- Claim C8: the line and bar builders preserve the series count and, per
series, the value sequence and label unchanged; the fixed default colors
are attached exactly when the series supplies no color (absent, or the
falsy empty string), and a supplied non-empty color is used unchanged. -/
theorem chart_series_preserved (title : String) (labels : List String)
    (datasets : List ChartDataset) :
    (createLineChart title labels datasets).datasets.length = datasets.length ∧
    (createBarChart title labels datasets).datasets.length = datasets.length ∧
    ∀ (i : Nat) (hi : i < datasets.length)
      (hl : i < (createLineChart title labels datasets).datasets.length)
      (hb : i < (createBarChart title labels datasets).datasets.length),
      (((createLineChart title labels datasets).datasets.get ⟨i, hl⟩).data
          = (datasets.get ⟨i, hi⟩).data ∧
        ((createBarChart title labels datasets).datasets.get ⟨i, hb⟩).data
          = (datasets.get ⟨i, hi⟩).data) ∧
      (((createLineChart title labels datasets).datasets.get ⟨i, hl⟩).label
          = (datasets.get ⟨i, hi⟩).label ∧
        ((createBarChart title labels datasets).datasets.get ⟨i, hb⟩).label
          = (datasets.get ⟨i, hi⟩).label) ∧
      ((datasets.get ⟨i, hi⟩).color = none →
        ((createLineChart title labels datasets).datasets.get ⟨i, hl⟩).borderColor
            = "rgb(75, 192, 192)" ∧
        ((createLineChart title labels datasets).datasets.get ⟨i, hl⟩).backgroundColor
            = "rgba(75, 192, 192, 0.2)" ∧
        ((createBarChart title labels datasets).datasets.get ⟨i, hb⟩).backgroundColor
            = "rgba(54, 162, 235, 0.5)" ∧
        ((createBarChart title labels datasets).datasets.get ⟨i, hb⟩).borderColor
            = "rgb(54, 162, 235)") ∧
      (∀ c, (datasets.get ⟨i, hi⟩).color = some c → c ≠ "" →
        ((createLineChart title labels datasets).datasets.get ⟨i, hl⟩).borderColor = c ∧
        ((createLineChart title labels datasets).datasets.get ⟨i, hl⟩).backgroundColor = c ∧
        ((createBarChart title labels datasets).datasets.get ⟨i, hb⟩).backgroundColor = c ∧
        ((createBarChart title labels datasets).datasets.get ⟨i, hb⟩).borderColor = c) := by
  refine ⟨by simp [createLineChart], by simp [createBarChart], ?_⟩
  intro i hi hl hb
  refine ⟨⟨by simp [createLineChart], by simp [createBarChart]⟩,
    ⟨by simp [createLineChart], by simp [createBarChart]⟩, ?_, ?_⟩
  · intro hc
    rw [List.get_eq_getElem] at hc
    simp [createLineChart, createBarChart, jsOrStr, hc]
  · intro c hc hne
    rw [List.get_eq_getElem] at hc
    simp [createLineChart, createBarChart, jsOrStr, hc, hne]

/-- Concrete series pair used to witness claim C8: one series without a
color and one with an explicit color. -/
def sampleChartDatasets : List ChartDataset :=
  [{ label := "s1", data := [DataPoint.num 1, DataPoint.num 2], color := none },
   { label := "s2", data := [DataPoint.num 3], color := some "red" }]

/-- Claim C8, witness: values are copied, the default is attached to the
colorless series, and the supplied color is kept. -/
theorem chart_series_preserved_witness :
    ((createLineChart "t" ["x", "y"] sampleChartDatasets).datasets.get
        ⟨0, by decide⟩).data = [DataPoint.num 1, DataPoint.num 2] ∧
    ((createLineChart "t" ["x", "y"] sampleChartDatasets).datasets.get
        ⟨0, by decide⟩).borderColor = "rgb(75, 192, 192)" ∧
    ((createBarChart "t" ["x", "y"] sampleChartDatasets).datasets.get
        ⟨1, by decide⟩).backgroundColor = "red" := by
  have h := chart_series_preserved "t" ["x", "y"] sampleChartDatasets
  exact ⟨(h.2.2 0 (by decide) (by decide) (by decide)).1.1,
    ((h.2.2 0 (by decide) (by decide) (by decide)).2.2.1 (by decide)).1,
    ((h.2.2 1 (by decide) (by decide) (by decide)).2.2.2 "red" (by decide) (by decide)).2.2.1⟩
